import Mathlib

/-!
Verification of the shanghai-run-fan running-route recommendation services.

The TypeScript sources are embedded shallowly: JavaScript numbers become
rationals (`ℚ`), strings stay `String`, objects become structures, and
nullable / possibly-missing values become `Option`.  `Math.round` in
JavaScript is `⌊x + 1/2⌋`, which coincides with Mathlib's `round` on `ℚ`.
-/

namespace ShanghaiRunFan

/-! ## Weather service (weatherService.ts) -/

/-- The fields of `WeatherData` used by the scoring code. -/
structure WeatherData where
  temperature : ℚ
  condition : String
  humidity : ℚ
  windSpeed : ℚ
deriving DecidableEq

/-- Temperature band factor of `getWeatherSuitabilityScore`. -/
def tempScore (t : ℚ) : ℚ :=
  if 15 ≤ t ∧ t ≤ 25 then 1
  else if 10 ≤ t ∧ t ≤ 30 then 0.8
  else if 5 ≤ t ∧ t ≤ 35 then 0.6
  else 0.3

/-- Weather-condition factor of `getWeatherSuitabilityScore` (the `switch`). -/
def conditionScore (c : String) : ℚ :=
  if c = "clear" ∨ c = "sunny" ∨ c = "partly-cloudy" then 1
  else if c = "cloudy" ∨ c = "overcast" then 0.9
  else if c = "light-rain" then 0.4
  else if c = "rain" ∨ c = "heavy-rain" then 0.1
  else if c = "snow" ∨ c = "fog" then 0.2
  else 0.7

/-- Wind-speed band factor of `getWeatherSuitabilityScore`. -/
def windScore (ws : ℚ) : ℚ :=
  if ws ≤ 10 then 1
  else if ws ≤ 20 then 0.8
  else 0.5

/-- Humidity band factor of `getWeatherSuitabilityScore`. -/
def humidityScore (h : ℚ) : ℚ :=
  if 40 ≤ h ∧ h ≤ 70 then 1
  else if 30 ≤ h ∧ h ≤ 80 then 0.9
  else 0.7

/-- Embeds `getWeatherSuitabilityScore`: starts at `1.0`, multiplies in the four
band factors, and finally clamps with `Math.max(0, Math.min(1, score))`. -/
def getWeatherSuitabilityScore (w : WeatherData) : ℚ :=
  max 0 (min 1 (1 * tempScore w.temperature * conditionScore w.condition
    * windScore w.windSpeed * humidityScore w.humidity))

lemma tempScore_mem (t : ℚ) : 0 < tempScore t ∧ tempScore t ≤ 1 := by
  unfold tempScore; split_ifs <;> norm_num

lemma conditionScore_mem (c : String) : 0 < conditionScore c ∧ conditionScore c ≤ 1 := by
  unfold conditionScore; split_ifs <;> norm_num

lemma windScore_mem (ws : ℚ) : 0 < windScore ws ∧ windScore ws ≤ 1 := by
  unfold windScore; split_ifs <;> norm_num

lemma humidityScore_mem (h : ℚ) : 0 < humidityScore h ∧ humidityScore h ≤ 1 := by
  unfold humidityScore; split_ifs <;> norm_num

lemma weatherProduct_mem (w : WeatherData) :
    0 ≤ 1 * tempScore w.temperature * conditionScore w.condition
      * windScore w.windSpeed * humidityScore w.humidity ∧
    1 * tempScore w.temperature * conditionScore w.condition
      * windScore w.windSpeed * humidityScore w.humidity ≤ 1 := by
  obtain ⟨ht0, ht1⟩ := tempScore_mem w.temperature
  obtain ⟨hc0, hc1⟩ := conditionScore_mem w.condition
  obtain ⟨hw0, hw1⟩ := windScore_mem w.windSpeed
  obtain ⟨hh0, hh1⟩ := humidityScore_mem w.humidity
  constructor
  · positivity
  · have htc : tempScore w.temperature * conditionScore w.condition ≤ 1 :=
      mul_le_one₀ ht1 hc0.le hc1
    have htcw : tempScore w.temperature * conditionScore w.condition
        * windScore w.windSpeed ≤ 1 :=
      mul_le_one₀ htc hw0.le hw1
    have htcwh : tempScore w.temperature * conditionScore w.condition
        * windScore w.windSpeed * humidityScore w.humidity ≤ 1 :=
      mul_le_one₀ htcw hh0.le hh1
    linarith

lemma getWeatherSuitabilityScore_eq_product (w : WeatherData) :
    getWeatherSuitabilityScore w = tempScore w.temperature * conditionScore w.condition
      * windScore w.windSpeed * humidityScore w.humidity := by
  obtain ⟨h0, h1⟩ := weatherProduct_mem w
  unfold getWeatherSuitabilityScore
  rw [min_eq_right h1, max_eq_right h0]
  ring

lemma windScore_antitone {a b : ℚ} (hab : a ≤ b) : windScore b ≤ windScore a := by
  unfold windScore
  split_ifs <;> linarith

/-! ## Recommendation engine (recommendationEngine.ts)

Only the fields that the scoring pipeline reads are modelled.  `any`-typed
objects whose fields the code merely tests for truthiness become `Bool`
fields; the `time_suitability` object, whose values are read, becomes an
association list. -/

/-- The `{ min, max }` object of `UserProfile.distance_range`. -/
structure DistanceRange where
  min : ℚ
  max : ℚ
deriving DecidableEq

/-- The fields of `UserProfile` read by `calculateUserRouteMatch`.  The
`distance_range` is `Option`al because the code guards on it. -/
structure UserProfile where
  fitness_level : ℚ
  difficulty_preference : String
  distance_range : Option DistanceRange
  terrain_preferences : List String
deriving DecidableEq

/-- Truthiness of the `features` fields the engine tests. -/
structure RouteFeatures where
  shade : Bool
  indoor : Bool
deriving DecidableEq

/-- Truthiness of the `weather_suitability` fields the engine tests. -/
structure WeatherSuitabilityFlags where
  sunny : Bool
  rainy : Bool
deriving DecidableEq

/-- The fields of `Route` read by the scoring pipeline. -/
structure Route where
  id : String
  distance : ℚ
  difficulty_level : ℚ
  terrain_type : String
  features : RouteFeatures
  avg_rating : ℚ
  safety_rating : ℚ
  lighting_quality : String
  weather_suitability : Option WeatherSuitabilityFlags
  time_suitability : Option (List (String × ℚ))
deriving DecidableEq

/-- The fields of `RunningHistory` read by the scoring pipeline. -/
structure RunningHistory where
  route_id : String
  distance : ℚ
  user_rating : ℚ
  effort_level : ℚ
deriving DecidableEq

/-- A recommendation entry: the route together with its
`confidence_score` (the code stores the same number in `score` and
`confidence_score`, so one field suffices). -/
structure Recommendation where
  route : Route
  confidence_score : ℚ
deriving DecidableEq

/-- JavaScript property lookup `obj[key]` on the association-list model. -/
def lookupSuit : List (String × ℚ) → String → Option ℚ
  | [], _ => none
  | (k, v) :: rest, key => if k = key then some v else lookupSuit rest key

/-- Embeds `calculateUserRouteMatch`: sums per-factor contributions into `score`,
counts `factors`, and divides. -/
def calculateUserRouteMatch (profile : Option UserProfile) (route : Route) : ℚ :=
  match profile with
  | none => 0.5
  | some p =>
    let distPart : ℚ × ℕ :=
      match p.distance_range with
      | some dr =>
        (if dr.min ≤ route.distance ∧ route.distance ≤ dr.max then 0.25
         else if route.distance < dr.min then max 0 (0.25 * (route.distance / dr.min))
         else max 0 (0.25 * (dr.max / route.distance)), 1)
      | none => (0, 0)
    let score := distPart.1 + (if route.terrain_type ∈ p.terrain_preferences then 0.2 else 0)
    let preferredLevels : List ℚ :=
      if p.difficulty_preference = "easy" then [1, 2, 3]
      else if p.difficulty_preference = "moderate" then [4, 5, 6]
      else if p.difficulty_preference = "hard" then [7, 8, 9, 10]
      else [4, 5, 6]
    let score := score + (if route.difficulty_level ∈ preferredLevels then 0.2 else 0)
    let levelDiff := |p.fitness_level - route.difficulty_level|
    let score := score +
      (if levelDiff ≤ 1 then 0.15
       else if levelDiff ≤ 2 then 0.1
       else if levelDiff ≤ 3 then 0.05
       else 0)
    let factors := distPart.2 + 3
    if 0 < factors then score / (factors : ℚ) else 0.5

/-- Embeds `calculateHistoryMatch`: compares the route against averages of the
running history (`effort_level || 5`, `user_rating || 3`). -/
def calculateHistoryMatch (history : List RunningHistory) (route : Route) : ℚ :=
  if history.length = 0 then 0.5
  else
    let n : ℚ := history.length
    let avgDistance := (history.map (fun run => run.distance)).sum / n
    let avgEffort :=
      (history.map (fun run => if run.effort_level = 0 then 5 else run.effort_level)).sum / n
    let avgRating :=
      (history.map (fun run => if run.user_rating = 0 then 3 else run.user_rating)).sum / n
    let distanceDiff := |route.distance - avgDistance|
    let score : ℚ :=
      if distanceDiff ≤ 1 then 0.3
      else if distanceDiff ≤ 2 then 0.2
      else if distanceDiff ≤ 3 then 0.1
      else 0
    let expectedDifficulty : ℤ := round avgEffort
    let difficultyDiff := |route.difficulty_level - (expectedDifficulty : ℚ)|
    let score := score +
      (if difficultyDiff ≤ 1 then 0.3
       else if difficultyDiff ≤ 2 then 0.2
       else 0)
    let score := score + (if 4 ≤ avgRating then 0.2 else 0)
    min 1 score

/-- Embeds `calculateNoveltyScore`: `0.2` for an already-run route; the
`similarRuns` filter always returns `false`, so otherwise `1.0`. -/
def calculateNoveltyScore (history : List RunningHistory) (route : Route) : ℚ :=
  let hasRun := history.any (fun run => run.route_id == route.id)
  if hasRun then 0.2
  else
    let similarRuns := history.filter (fun _ => false)
    if similarRuns.length = 0 then 1.0
    else if similarRuns.length ≤ 2 then 0.8
    else 0.6

/-- Embeds `calculateWeatherMatch`: route-side condition score, temperature
bonuses, then `min(1, routeWeatherScore * weatherSuitability)`. -/
def calculateWeatherMatch (route : Route) (weather : WeatherData) : ℚ :=
  match route.weather_suitability with
  | none => 0.5
  | some ws =>
    let weatherSuitability := getWeatherSuitabilityScore weather
    let routeWeatherScore : ℚ :=
      if weather.condition = "clear" ∨ weather.condition = "sunny" then
        (if ws.sunny then 1.0 else 0.3)
      else if weather.condition = "rain" ∨ weather.condition = "heavy-rain" then
        (if ws.rainy then 0.8 else 0.1)
      else if weather.condition = "cloudy" ∨ weather.condition = "partly-cloudy" then 0.9
      else 0.7
    let routeWeatherScore := routeWeatherScore +
      (if 30 < weather.temperature ∧ route.features.shade then 0.2 else 0)
    let routeWeatherScore := routeWeatherScore +
      (if weather.temperature < 10 ∧ route.features.indoor then 0.3 else 0)
    min 1 (routeWeatherScore * weatherSuitability)

/-- Embeds `calculateTimeMatch`: returns `1.0` on a truthy
`time_suitability[timeOfDay]`, a lighting fallback at night, else `0.5`. -/
def calculateTimeMatch (route : Route) (timeOfDay : String) : ℚ :=
  match route.time_suitability with
  | none => 0.5
  | some suit =>
    let isTimeMatch : Bool :=
      match lookupSuit suit timeOfDay with
      | some v => decide (v ≠ 0)
      | none => false
    if isTimeMatch then 1.0
    else if timeOfDay = "night" then
      if route.lighting_quality = "excellent" then 0.8
      else if route.lighting_quality = "good" then 0.6
      else 0.2
    else 0.5

/-- The weighted aggregation of the seven sub-scores from
`generateRecommendations` (lines 498-506). -/
def confidenceScore (userMatch historyMatch weatherMatch timeMatch
    safetyScore popularityScore noveltyScore : ℚ) : ℚ :=
  userMatch * 0.25 + historyMatch * 0.2 + weatherMatch * 0.2 + timeMatch * 0.15
    + safetyScore * 0.1 + popularityScore * 0.05 + noveltyScore * 0.05

/-- The per-route body of the `for` loop of `generateRecommendations`:
computes the sub-scores and the aggregate confidence. -/
def scoreRoute (profile : Option UserProfile) (history : List RunningHistory)
    (weather : WeatherData) (timeOfDay : String) (route : Route) : Recommendation :=
  let userMatch := calculateUserRouteMatch profile route
  let historyMatch := calculateHistoryMatch history route
  let noveltyScore := calculateNoveltyScore history route
  let weatherMatch := calculateWeatherMatch route weather
  let timeMatch := calculateTimeMatch route timeOfDay
  let safetyScore := route.safety_rating / 5
  let popularityScore := min 1 (route.avg_rating / 5)
  { route := route,
    confidence_score := confidenceScore userMatch historyMatch weatherMatch timeMatch
      safetyScore popularityScore noveltyScore }

/-- The comparator `(a, b) => b.confidence_score - a.confidence_score`:
`a` precedes `b` exactly when `b.confidence_score ≤ a.confidence_score`. -/
def recBefore (a b : Recommendation) : Prop := b.confidence_score ≤ a.confidence_score

instance : DecidableRel recBefore := fun a b =>
  inferInstanceAs (Decidable (b.confidence_score ≤ a.confidence_score))

/-- Embeds `Array.prototype.sort` with the descending comparator: a stable sort,
modelled by insertion sort (ECMAScript requires sort stability). -/
def sortRecs (l : List Recommendation) : List Recommendation :=
  l.insertionSort recBefore

/-- Embeds `generateRecommendations` on already-loaded data: score every route,
sort by descending confidence, `slice(0, limit)`. -/
def generateRecommendations (profile : Option UserProfile)
    (history : List RunningHistory) (routes : List Route)
    (weather : WeatherData) (timeOfDay : String) (limit : ℕ) : List Recommendation :=
  (sortRecs (routes.map (scoreRoute profile history weather timeOfDay))).take limit

/-! ## Feedback learner (feedbackService, src/unnamed/part_003) -/

/-- Embeds `Math.round(x * 10) / 10`: JavaScript rounding to one decimal.
`Math.round x = ⌊x + 1/2⌋`, which is Mathlib's `round` on `ℚ`. -/
def roundToTenth (q : ℚ) : ℚ := ((round (q * 10) : ℤ) : ℚ) / 10

/-- Embeds `calculateNewPreference`: EMA update with weight `overallRating / 5`,
rounded to one decimal and clamped into `[1, 10]`; a `newRating` of `0`
leaves the preference unchanged. -/
def calculateNewPreference (currentPreference newRating overallRating : ℚ) : ℚ :=
  if newRating = 0 then currentPreference
  else
    let weight := overallRating / 5
    let newPreference := currentPreference * 0.8 + newRating * weight * 0.2
    max 1 (min 10 (roundToTenth newPreference))

/-! ## Spec-side definitions for refinement claims -/

/-- Modelled from the amended wording of the time-match claim: `1.0` when
the time-suitability entry for the current bucket is present and nonzero;
otherwise at night a three-tier lighting fallback; otherwise `0.5` (also
`0.5` when the item has no time-suitability map at all). -/
def timeMatchDescribed (route : Route) (timeOfDay : String) : ℚ :=
  match route.time_suitability with
  | none => 0.5
  | some suit =>
    match lookupSuit suit timeOfDay with
    | some v =>
      if v ≠ 0 then 1
      else if timeOfDay = "night" then
        (if route.lighting_quality = "excellent" then 0.8
         else if route.lighting_quality = "good" then 0.6
         else 0.2)
      else 0.5
    | none =>
      if timeOfDay = "night" then
        (if route.lighting_quality = "excellent" then 0.8
         else if route.lighting_quality = "good" then 0.6
         else 0.2)
      else 0.5

/-- Modelled from the amended wording of the feedback-update claim:
exponential moving average `old * 0.8 + observed * (overall / 5) * 0.2`,
rounded to one decimal, clamped into `[1, 10]`; a zero observed rating
leaves the value unchanged. -/
def emaUpdateDescribed (old observed overall : ℚ) : ℚ :=
  if observed = 0 then old
  else max 1 (min 10 (roundToTenth (old * 0.8 + observed * (overall / 5) * 0.2)))

/-- A concrete route whose time-suitability map holds the value `0.9` for
the `morning` bucket. -/
def exampleTimeRoute : Route :=
  { id := "route-x", distance := 3, difficulty_level := 2, terrain_type := "flat",
    features := { shade := false, indoor := false }, avg_rating := 4,
    safety_rating := 8, lighting_quality := "good",
    weather_suitability := none, time_suitability := some [("morning", 0.9)] }

/-! ## Claims -/

/-- C1: when the seven sub-scores (preference, history, weather, time,
normalized safety, normalized popularity, novelty) all lie in `[0, 1]`,
the aggregate confidence of `generateRecommendations` is exactly the
dot product with the fixed weights `0.25, 0.2, 0.2, 0.15, 0.1, 0.05, 0.05`
(which sum to `1`), lies in `[0, 1]`, and hits `1` at all-ones and `0` at
all-zeros. -/
theorem c1_confidence_weighted_sum (u h w t s p n : ℚ)
    (hu0 : 0 ≤ u) (hu1 : u ≤ 1) (hh0 : 0 ≤ h) (hh1 : h ≤ 1)
    (hw0 : 0 ≤ w) (hw1 : w ≤ 1) (ht0 : 0 ≤ t) (ht1 : t ≤ 1)
    (hs0 : 0 ≤ s) (hs1 : s ≤ 1) (hp0 : 0 ≤ p) (hp1 : p ≤ 1)
    (hn0 : 0 ≤ n) (hn1 : n ≤ 1) :
    confidenceScore u h w t s p n
        = u * 0.25 + h * 0.2 + w * 0.2 + t * 0.15 + s * 0.1 + p * 0.05 + n * 0.05
      ∧ (0.25 + 0.2 + 0.2 + 0.15 + 0.1 + 0.05 + 0.05 : ℚ) = 1
      ∧ 0 ≤ confidenceScore u h w t s p n
      ∧ confidenceScore u h w t s p n ≤ 1
      ∧ confidenceScore 1 1 1 1 1 1 1 = 1
      ∧ confidenceScore 0 0 0 0 0 0 0 = 0 := by
  refine ⟨rfl, by norm_num, ?_, ?_, by norm_num [confidenceScore], by norm_num [confidenceScore]⟩
  · unfold confidenceScore
    have h1 : 0 ≤ u * 0.25 := by positivity
    have h2 : 0 ≤ h * 0.2 := by positivity
    have h3 : 0 ≤ w * 0.2 := by positivity
    have h4 : 0 ≤ t * 0.15 := by positivity
    have h5 : 0 ≤ s * 0.1 := by positivity
    have h6 : 0 ≤ p * 0.05 := by positivity
    have h7 : 0 ≤ n * 0.05 := by positivity
    linarith
  · unfold confidenceScore
    nlinarith

/-- C1 witness: the theorem at the all-ones sub-scores. -/
theorem c1_confidence_weighted_sum_witness :
    confidenceScore 1 1 1 1 1 1 1
        = 1 * 0.25 + 1 * 0.2 + 1 * 0.2 + 1 * 0.15 + 1 * 0.1 + 1 * 0.05 + 1 * 0.05
      ∧ (0.25 + 0.2 + 0.2 + 0.15 + 0.1 + 0.05 + 0.05 : ℚ) = 1
      ∧ 0 ≤ confidenceScore 1 1 1 1 1 1 1
      ∧ confidenceScore 1 1 1 1 1 1 1 ≤ 1
      ∧ confidenceScore 1 1 1 1 1 1 1 = 1
      ∧ confidenceScore 0 0 0 0 0 0 0 = 0 :=
  c1_confidence_weighted_sum 1 1 1 1 1 1 1
    (by norm_num) (by norm_num) (by norm_num) (by norm_num) (by norm_num) (by norm_num)
    (by norm_num) (by norm_num) (by norm_num) (by norm_num) (by norm_num) (by norm_num)
    (by norm_num) (by norm_num)

/-- C2: for every weather reading, the weather suitability score is
exactly the product of the four band sub-scores, and the two example
scenarios evaluate to `1.0` (clear) and `0.1` (rain). -/
theorem c2_weather_product_of_four :
    (∀ w : WeatherData,
      getWeatherSuitabilityScore w = tempScore w.temperature * conditionScore w.condition
        * windScore w.windSpeed * humidityScore w.humidity)
    ∧ getWeatherSuitabilityScore ⟨20, "clear", 55, 5⟩ = 1
    ∧ getWeatherSuitabilityScore ⟨20, "rain", 55, 5⟩ = 0.1 := by
  refine ⟨getWeatherSuitabilityScore_eq_product, ?_, ?_⟩
  · rw [getWeatherSuitabilityScore_eq_product]
    simp +decide [tempScore, conditionScore, windScore, humidityScore]
  · rw [getWeatherSuitabilityScore_eq_product]
    simp +decide [tempScore, conditionScore, windScore, humidityScore]

/-- C3: the weather suitability score always lies in `[0, 1]`, and with
temperature, condition and humidity held fixed it is non-increasing in
the wind speed. -/
theorem c3_weather_bounds_and_wind_antitone :
    (∀ w : WeatherData, 0 ≤ getWeatherSuitabilityScore w ∧ getWeatherSuitabilityScore w ≤ 1)
    ∧ (∀ w1 w2 : WeatherData, w1.temperature = w2.temperature →
        w1.condition = w2.condition → w1.humidity = w2.humidity →
        w1.windSpeed ≤ w2.windSpeed →
        getWeatherSuitabilityScore w2 ≤ getWeatherSuitabilityScore w1) := by
  constructor
  · intro w
    exact ⟨le_max_left 0 _, max_le (by norm_num) (min_le_left 1 _)⟩
  · intro w1 w2 htemp hcond hhum hwind
    unfold getWeatherSuitabilityScore
    rw [← htemp, ← hcond, ← hhum]
    have hW := windScore_antitone hwind
    have hTC : 0 ≤ 1 * tempScore w1.temperature * conditionScore w1.condition := by
      have := (tempScore_mem w1.temperature).1
      have := (conditionScore_mem w1.condition).1
      positivity
    have hH : 0 ≤ humidityScore w1.humidity := (humidityScore_mem w1.humidity).1.le
    have hP : 1 * tempScore w1.temperature * conditionScore w1.condition
        * windScore w2.windSpeed * humidityScore w1.humidity
        ≤ 1 * tempScore w1.temperature * conditionScore w1.condition
        * windScore w1.windSpeed * humidityScore w1.humidity :=
      mul_le_mul_of_nonneg_right (mul_le_mul_of_nonneg_left hW hTC) hH
    exact max_le_max le_rfl (min_le_min le_rfl hP)

/-- C3 witness: the theorem at wind speeds `5 ≤ 25` with fixed
temperature `20`, condition `clear`, humidity `55`. -/
theorem c3_weather_bounds_and_wind_antitone_witness :
    getWeatherSuitabilityScore ⟨20, "clear", 55, 25⟩
      ≤ getWeatherSuitabilityScore ⟨20, "clear", 55, 5⟩ :=
  c3_weather_bounds_and_wind_antitone.2 ⟨20, "clear", 55, 5⟩ ⟨20, "clear", 55, 25⟩
    rfl rfl rfl (by norm_num)

lemma recBefore_iff (a b : Recommendation) :
    recBefore a b ↔ b.confidence_score ≤ a.confidence_score := Iff.rfl

lemma filter_orderedInsert_of_score_eq (x : Recommendation) (q : ℚ)
    (hx : x.confidence_score = q) :
    ∀ l : List Recommendation,
      (List.orderedInsert recBefore x l).filter
          (fun r => decide (r.confidence_score = q))
        = x :: l.filter (fun r => decide (r.confidence_score = q))
  | [] => by simp [List.orderedInsert, hx]
  | b :: bs => by
    by_cases hb : recBefore x b
    · simp [List.orderedInsert, hb, hx]
    · have hbq : ¬ (b.confidence_score = q) := by
        intro e
        exact hb (by rw [recBefore_iff, e, hx])
      simp [List.orderedInsert, hb, hbq,
        filter_orderedInsert_of_score_eq x q hx bs]

lemma filter_orderedInsert_of_score_ne (x : Recommendation) (q : ℚ)
    (hx : ¬ (x.confidence_score = q)) :
    ∀ l : List Recommendation,
      (List.orderedInsert recBefore x l).filter
          (fun r => decide (r.confidence_score = q))
        = l.filter (fun r => decide (r.confidence_score = q))
  | [] => by simp [List.orderedInsert, hx]
  | b :: bs => by
    by_cases hb : recBefore x b
    · simp [List.orderedInsert, hb, hx]
    · simp [List.orderedInsert, hb, List.filter_cons,
        filter_orderedInsert_of_score_ne x q hx bs]

lemma filter_sortRecs (q : ℚ) :
    ∀ l : List Recommendation,
      (sortRecs l).filter (fun r => decide (r.confidence_score = q))
        = l.filter (fun r => decide (r.confidence_score = q))
  | [] => rfl
  | x :: xs => by
    show (List.orderedInsert recBefore x (sortRecs xs)).filter _ = _
    by_cases hx : x.confidence_score = q
    · rw [filter_orderedInsert_of_score_eq x q hx, filter_sortRecs q xs]
      simp [hx]
    · rw [filter_orderedInsert_of_score_ne x q hx, filter_sortRecs q xs]
      simp [hx]

/-- C4: the ranking is stable.  Sorting by descending confidence keeps
candidates of any fixed score `q` in their input order (the filtered
sublists coincide), and the truncated output of
`generateRecommendations` restricted to score `q` is an initial segment
of the scored input restricted to score `q`. -/
theorem c4_ranking_stable :
    (∀ (l : List Recommendation) (q : ℚ),
      (sortRecs l).filter (fun r => decide (r.confidence_score = q))
        = l.filter (fun r => decide (r.confidence_score = q)))
    ∧ (∀ (profile : Option UserProfile) (history : List RunningHistory)
        (routes : List Route) (weather : WeatherData) (timeOfDay : String)
        (limit : ℕ) (q : ℚ), ∃ rest,
        (generateRecommendations profile history routes weather timeOfDay limit).filter
            (fun r => decide (r.confidence_score = q)) ++ rest
          = (routes.map (scoreRoute profile history weather timeOfDay)).filter
            (fun r => decide (r.confidence_score = q))) := by
  refine ⟨fun l q => filter_sortRecs q l, ?_⟩
  intro profile history routes weather timeOfDay limit q
  refine ⟨(List.drop limit
    (sortRecs (routes.map (scoreRoute profile history weather timeOfDay)))).filter
      (fun r => decide (r.confidence_score = q)), ?_⟩
  rw [generateRecommendations, ← List.filter_append, List.take_append_drop]
  exact filter_sortRecs q _

/-- C5: the result of `generateRecommendations` has exactly
`min limit candidateCount` entries, hence never more than `limit` and
never fewer than `min limit candidateCount`. -/
theorem c5_result_length (profile : Option UserProfile)
    (history : List RunningHistory) (routes : List Route)
    (weather : WeatherData) (timeOfDay : String) (limit : ℕ) :
    (generateRecommendations profile history routes weather timeOfDay limit).length
        = min limit routes.length
    ∧ (generateRecommendations profile history routes weather timeOfDay limit).length
        ≤ limit := by
  have h : (generateRecommendations profile history routes weather timeOfDay limit).length
      = min limit routes.length := by
    rw [generateRecommendations, List.length_take, sortRecs,
      List.length_insertionSort, List.length_map]
  exact ⟨h, h ▸ min_le_left _ _⟩

/-- C6: `generateRecommendations` is deterministic: two invocations on
identical loaded profiles, histories, catalogs, weather contexts,
times of day and limits return identical ordered lists. -/
theorem c6_deterministic (p1 p2 : Option UserProfile)
    (h1 h2 : List RunningHistory) (r1 r2 : List Route)
    (w1 w2 : WeatherData) (t1 t2 : String) (l1 l2 : ℕ)
    (hp : p1 = p2) (hh : h1 = h2) (hr : r1 = r2) (hw : w1 = w2)
    (ht : t1 = t2) (hl : l1 = l2) :
    generateRecommendations p1 h1 r1 w1 t1 l1
      = generateRecommendations p2 h2 r2 w2 t2 l2 := by
  rw [hp, hh, hr, hw, ht, hl]

/-- C6 witness: the theorem at a concrete invocation. -/
theorem c6_deterministic_witness :
    generateRecommendations none [] [exampleTimeRoute] ⟨20, "clear", 55, 5⟩ "morning" 6
      = generateRecommendations none [] [exampleTimeRoute] ⟨20, "clear", 55, 5⟩ "morning" 6 :=
  c6_deterministic none none [] [] [exampleTimeRoute] [exampleTimeRoute]
    ⟨20, "clear", 55, 5⟩ ⟨20, "clear", 55, 5⟩ "morning" "morning" 6 6
    rfl rfl rfl rfl rfl rfl

/-- C7 counterexample: at prior preference `5`, observed rating `8` and
overall rating `4`, the code rounds the EMA value `5.28` to `5.3`, so the
claimed formula `clamp(old*0.8 + observed*(overall/5)*0.2, 1, 10)` (which
yields `5.28 = 132/25`) does not describe the update. -/
theorem c7_counterexample :
    calculateNewPreference 5 8 4 = 53 / 10
    ∧ max 1 (min 10 ((5 : ℚ) * 0.8 + 8 * (4 / 5) * 0.2)) = 132 / 25
    ∧ ((53 : ℚ) / 10) ≠ 132 / 25 := by
  refine ⟨?_, ?_, by norm_num⟩
  · simp only [calculateNewPreference]
    norm_num [roundToTenth, round_eq]
  · rw [min_eq_right (by norm_num), max_eq_right (by norm_num)]
    norm_num

/-- C7 (amended): the feedback update equals the EMA
`old*0.8 + observed*(overall/5)*0.2` rounded to one decimal and clamped
into `[1, 10]`; an observed rating of `0` leaves the dimension unchanged,
and the example (`old = 5`, `observed = 8`, `overall = 5`) yields `5.6`. -/
theorem c7_ema_update_rounded :
    (∀ c n o : ℚ, calculateNewPreference c n o = emaUpdateDescribed c n o)
    ∧ calculateNewPreference 5 8 5 = 28 / 5
    ∧ (∀ c o : ℚ, calculateNewPreference c 0 o = c) := by
  refine ⟨fun c n o => rfl, ?_, fun c o => by simp [calculateNewPreference]⟩
  simp only [calculateNewPreference]
  norm_num [roundToTenth, round_eq]

/-- C8: whenever the prior preference lies in `[1, 10]`, the preference
produced by the feedback update lies in `[1, 10]`, for any observed and
overall ratings. -/
theorem c8_preference_bounds (c n o : ℚ) (hc1 : 1 ≤ c) (hc10 : c ≤ 10) :
    1 ≤ calculateNewPreference c n o ∧ calculateNewPreference c n o ≤ 10 := by
  unfold calculateNewPreference
  split_ifs with hn
  · exact ⟨hc1, hc10⟩
  · exact ⟨le_max_left 1 _, max_le (by norm_num) (min_le_left 10 _)⟩

/-- C8 witness: the theorem at prior `5`, observed `8`, overall `5`. -/
theorem c8_preference_bounds_witness :
    1 ≤ calculateNewPreference 5 8 5 ∧ calculateNewPreference 5 8 5 ≤ 10 :=
  c8_preference_bounds 5 8 5 (by norm_num) (by norm_num)

/-- C9 counterexample: a route whose time-suitability value for
`morning` is `0.9` gets time match `1.0`, not the looked-up value `0.9`,
so `calculateTimeMatch` does not return the stored suitability value. -/
theorem c9_counterexample :
    calculateTimeMatch exampleTimeRoute "morning" = 1
    ∧ lookupSuit [("morning", 0.9)] "morning" = some 0.9
    ∧ calculateTimeMatch exampleTimeRoute "morning" ≠ 0.9 := by
  refine ⟨?_, by norm_num [lookupSuit], ?_⟩
  · norm_num [calculateTimeMatch, exampleTimeRoute, lookupSuit]
  · norm_num [calculateTimeMatch, exampleTimeRoute, lookupSuit]

/-- C9 (amended): the time-of-day match returns `1.0` when the item's
suitability entry for the current bucket is present and nonzero; when it
is absent (or zero) and the bucket is `night`, a three-tier fallback from
lighting quality; otherwise `0.5` (also when the suitability map itself
is missing). -/
theorem c9_time_match_described (route : Route) (timeOfDay : String) :
    calculateTimeMatch route timeOfDay = timeMatchDescribed route timeOfDay := by
  unfold calculateTimeMatch timeMatchDescribed
  cases hts : route.time_suitability with
  | none => rfl
  | some suit =>
    cases hl : lookupSuit suit timeOfDay with
    | none => simp [hl]
    | some v =>
      by_cases hv : v = 0
      · simp [hl, hv]
      · simp [hl, hv]
        norm_num

lemma clamp_roundToTenth_tenth (q : ℚ) :
    ∃ k : ℤ, max 1 (min 10 (roundToTenth q)) = (k : ℚ) / 10 := by
  rcases le_total (roundToTenth q) 10 with h10 | h10
  · rcases le_total 1 (roundToTenth q) with h1 | h1
    · exact ⟨round (q * 10), by rw [min_eq_right h10, max_eq_right h1]; rfl⟩
    · exact ⟨10, by rw [min_eq_right h10, max_eq_left h1]; norm_num⟩
  · exact ⟨100, by rw [min_eq_left h10, max_eq_right (by norm_num : (1 : ℚ) ≤ 10)]; norm_num⟩

/-- C10: whenever a dimension is actually rated (observed rating nonzero),
the stored preference is a multiple of `0.1`: the EMA result is rounded to
one decimal before being clamped and persisted. -/
theorem c10_tenth_granularity (c n o : ℚ) (hn : n ≠ 0) :
    ∃ k : ℤ, calculateNewPreference c n o = (k : ℚ) / 10 := by
  unfold calculateNewPreference
  rw [if_neg hn]
  exact clamp_roundToTenth_tenth (c * 0.8 + n * (o / 5) * 0.2)

/-- C10 witness: the theorem at prior `5`, observed `8`, overall `4`. -/
theorem c10_tenth_granularity_witness :
    ∃ k : ℤ, calculateNewPreference 5 8 4 = (k : ℚ) / 10 :=
  c10_tenth_granularity 5 8 4 (by norm_num)

end ShanghaiRunFan
